import Mathlib

/-
A shallow embedding of the AB-testing tracker SDK
(`snippet/ab-tracker-sdk/src/index.ts`, class `ABTrackerEnterprise`).

Modelling conventions:
* JS strings are Lean `String`; `charCodeAt` is modelled via UTF-16 code
  units (`utf16Units`).
* JS 32-bit signed integer coercion (`x | 0`, `x & x`, `<<`) is modelled by
  `toInt32` on `Int`.
* JS objects used as string-keyed maps (`assignments`, `exposures`) are
  modelled as insertion-ordered association lists, matching the iteration
  order of `Object.entries` on such objects.
* `eventQueue` models the append-only sequence of envelopes ever passed to
  `enqueueEvent`; `flushEvents` (network delivery and queue clearing) is not
  modelled, since the statements below quantify over enqueued envelopes.
* Browser facilities (regex matching, cookies, query parameters, global
  variables, the clock) are supplied by an explicit environment `Env`;
  numeric coercion for GREATER_THAN / LESS_THAN is abstracted as the oracle
  `Env.numValue` (IEEE-754 doubles are not modelled; no statement below
  depends on the numeric operators).
* DOM mutation (`applyChanges`) and timestamps/urls on envelopes are outside
  the modelled state.
-/

namespace AB

/-- JS `ToInt32`: reduce an integer modulo 2^32 into `[-2^31, 2^31)`. -/
def toInt32 (n : Int) : Int :=
  (n + 2 ^ 31) % 2 ^ 32 - 2 ^ 31

/-- UTF-16 code units of a character, as produced by JS `charCodeAt`. -/
def utf16Units (c : Char) : List Nat :=
  let n := c.toNat
  if n < 65536 then [n]
  else [55296 + (n - 65536) / 1024, 56320 + (n - 65536) % 1024]

/-- The UTF-16 code-unit sequence of a string. -/
def codeUnits (s : String) : List Nat :=
  (s.data.map utf16Units).flatten

/-- One iteration of `hashCode`: `hash = (hash << 5) - hash + char; hash = hash & hash`.
`hash << 5` coerces `32 * hash` to int32; the subtraction and addition are
exact in doubles; `hash & hash` coerces the result back to int32. -/
def hashStep (h : Int) (c : Nat) : Int :=
  toInt32 (toInt32 (32 * h) - h + c)

/-- `hashCode(str)` from the source: polynomial rolling hash over the UTF-16
code units, truncated to int32 each step, then `Math.abs`. -/
def hashCode (s : String) : Nat :=
  ((codeUnits s).foldl hashStep 0).natAbs

structure VariantConfig where
  id : String
  name : Option String := none
  isControl : Option Bool := none
  trafficWeight : Int
deriving DecidableEq

structure AudienceConfig where
  type : String
  key : Option String := none
  operator : String
  value : Option String := none
deriving DecidableEq

structure ExperimentConfig where
  id : String
  name : Option String := none
  status : String
  trafficAllocation : Int
  urlPattern : String
  audiences : Option (List AudienceConfig) := none
  variants : List VariantConfig
deriving DecidableEq

structure GoalConfig where
  id : String
  name : Option String := none
  type : String
  selector : Option String := none
  urlPattern : Option String := none
  eventName : Option String := none
  experimentIds : Option (List String) := none
deriving DecidableEq

structure ProjectConfig where
  projectId : String
  experiments : List ExperimentConfig
  goals : List GoalConfig
deriving DecidableEq

/-- `bucket`'s accumulation loop: walk the variants in declared order,
accumulating `trafficWeight`; return the first variant id whose cumulative
weight strictly exceeds `h` (`hash % 100 < weightSum`). -/
def bucketLoop (h : Int) : List VariantConfig → Int → Option String
  | [], _ => none
  | v :: vs, acc =>
    let acc' := acc + v.trafficWeight
    if h < acc' then some v.id else bucketLoop h vs acc'

/-- `bucket(salt, variants)` from the source. The fallback `variants[0].id`
throws in JS on an empty list; the model returns `""` there and every
statement about `bucket` assumes a non-empty variant list. -/
def bucket (visitorId salt : String) (variants : List VariantConfig) : String :=
  let h : Int := (hashCode (visitorId ++ salt) % 100 : Nat)
  match bucketLoop h variants 0 with
  | some id => id
  | none => ((variants.head?).map (fun v => v.id)).getD ""

/-- `isUserInSample(expId, allocation)` from the source. -/
def isUserInSample (visitorId expId : String) (allocation : Int) : Bool :=
  decide (((hashCode (visitorId ++ expId ++ "alloc") % 100 : Nat) : Int) < allocation)

/-- Browser-supplied facts, abstracted as oracles: the current URL/path, the
clock, the regex engine (`regexTest pattern subject`), and the audience value
sources (`navigator`, query string, cookies, globals). `numValue` abstracts
JS `Number(...)` coercion (`none` models `NaN`). -/
structure Env where
  url : String
  path : String
  now : Int
  deviceMobile : Bool := false
  userAgent : String := ""
  queryParam : String → Option String := fun _ => none
  cookie : String → Option String := fun _ => none
  jsVar : String → Option String := fun _ => none
  regexTest : String → String → Bool := fun _ _ => false
  numValue : String → Option Rat := fun _ => none

/-- The audience `type` values recognised by the `switch` in `checkAudiences`. -/
def recognizedAudienceType (t : String) : Bool :=
  t == "DEVICE" || t == "BROWSER" || t == "QUERY_PARAM" || t == "COOKIE" || t == "JS_VAR"

/-- The seven audience operators recognised by the `switch` in `checkAudiences`. -/
def recognizedOperator (op : String) : Bool :=
  op == "IS" || op == "IS_NOT" || op == "CONTAINS" || op == "NOT_CONTAINS" ||
  op == "MATCHES_REGEX" || op == "GREATER_THAN" || op == "LESS_THAN"

/-- JS `String(x).indexOf(String(y)) > -1`: substring containment on
code-point lists (all strings in the statements below are ASCII). -/
def hasSub (needle : List Char) : List Char → Bool
  | [] => needle.isEmpty
  | c :: t => needle.isPrefixOf (c :: t) || hasSub needle t

/-- The operator `switch` of `checkAudiences`. `aud.value` being absent is JS
`undefined`, which `String(...)` renders as `"undefined"`. The default branch
returns `true`. -/
def evalOperator (env : Env) (op : String) (userValue : String) (audValue : Option String) : Bool :=
  let v := audValue.getD "undefined"
  match op with
  | "IS" => userValue == v
  | "IS_NOT" => userValue != v
  | "CONTAINS" => hasSub v.data userValue.data
  | "NOT_CONTAINS" => !hasSub v.data userValue.data
  | "MATCHES_REGEX" => env.regexTest v userValue
  | "GREATER_THAN" =>
    match env.numValue userValue, env.numValue (audValue.getD "undefined") with
    | some a, some b => decide (b < a)
    | _, _ => false
  | "LESS_THAN" =>
    match env.numValue userValue, env.numValue (audValue.getD "undefined") with
    | some a, some b => decide (a < b)
    | _, _ => false
  | _ => true

/-- The `userValue` resolved by the type `switch` of `checkAudiences`
(`none` models JS `null`/`undefined`); only meaningful for recognised types. -/
def resolveUserValue (env : Env) (aud : AudienceConfig) : Option String :=
  match aud.type with
  | "DEVICE" => some (if env.deviceMobile then "mobile" else "desktop")
  | "BROWSER" => some env.userAgent
  | "QUERY_PARAM" => env.queryParam (aud.key.getD "")
  | "COOKIE" => env.cookie (aud.key.getD "")
  | "JS_VAR" => env.jsVar (aud.key.getD "")
  | _ => none

/-- One audience predicate of `checkAudiences`: the type `switch` returns
`true` on its default branch; a `null`/`undefined` resolved value fails the
predicate; otherwise the operator `switch` decides. -/
def evalAudience (env : Env) (aud : AudienceConfig) : Bool :=
  if recognizedAudienceType aud.type then
    match resolveUserValue env aud with
    | none => false
    | some v => evalOperator env aud.operator v aud.value
  else true

/-- `checkAudiences`: AND across the audience list (`Array.every`). -/
def checkAudiences (env : Env) (audiences : List AudienceConfig) : Bool :=
  audiences.all (evalAudience env)

-- --------------------------- Tracker state ---------------------------

structure Assignment where
  variantId : String
  variantName : Option String := none
  experimentName : Option String := none
  assignedAt : Int := 0
deriving DecidableEq

structure Exposure where
  variantId : String
  exposedAt : Int
  exposureCount : Nat
deriving DecidableEq

structure AttributedExperiment where
  experimentId : String
  experimentName : Option String
  variantId : String
  variantName : Option String
deriving DecidableEq

/-- Payload of an outbound envelope (`eventType` plus its type-specific
fields, as passed to `enqueueEvent`). -/
inductive EventData where
  | sessionStart (referrer : String)
  | experimentView (experimentId : String) (experimentName : Option String)
      (variantId : String) (variantName : Option String) (isControl : Bool)
  | goalConversion (goalId : String) (goalName : Option String) (goalType : String)
      (attributedExperiments : List AttributedExperiment)
  | customEvent (eventName : String) (attributedExperiments : List AttributedExperiment)
deriving DecidableEq

/-- An `OutboundEventEnvelope` as built by `enqueueEvent` (timestamp and url
omitted: no statement below concerns them). -/
structure Envelope where
  visitorId : String
  sessionId : String
  data : EventData
deriving DecidableEq

/-- In-process state of one `ABTrackerEnterprise` instance. `assignments` and
`exposures` mirror the localStorage-backed maps; `activeExperiments`,
`trackedGoals` and `eventQueue` are in-memory only (a `Set`, a `Set`, and the
append-only enqueue log respectively). -/
structure TrackerState where
  visitorId : String
  sessionId : String
  assignments : List (String × Assignment) := []
  exposures : List (String × Exposure) := []
  activeExperiments : List String := []
  trackedGoals : List String := []
  eventQueue : List Envelope := []
  config : Option ProjectConfig := none
  revealed : Bool := false
deriving DecidableEq

/-- Lookup in a string-keyed JS object modelled as an association list. -/
def lookupA {α : Type} (m : List (String × α)) (k : String) : Option α :=
  (m.find? (fun p => p.1 == k)).map (fun p => p.2)

/-- JS `obj[k] = v`: overwrite in place if the key exists, else append
(insertion order preserved, matching `Object.entries`). -/
def setA {α : Type} (m : List (String × α)) (k : String) (v : α) : List (String × α) :=
  if (lookupA m k).isSome then m.map (fun p => if p.1 == k then (p.1, v) else p)
  else m ++ [(k, v)]

/-- `enqueueEvent`: append an envelope stamped with the instance's visitor
and session ids. -/
def enqueueEvent (s : TrackerState) (d : EventData) : TrackerState :=
  { s with eventQueue := s.eventQueue ++ [⟨s.visitorId, s.sessionId, d⟩] }

/-- `hasAnyExposure()`: `Object.keys(this.exposures).length > 0`. -/
def hasAnyExposure (s : TrackerState) : Bool :=
  !s.exposures.isEmpty

/-- `getExposedExperiments()`: exposures joined with their assignment record;
an exposure whose experiment has no assignment entry is skipped. -/
def getExposedExperiments (s : TrackerState) : List AttributedExperiment :=
  s.exposures.filterMap (fun p =>
    (lookupA s.assignments p.1).map (fun a =>
      { experimentId := p.1, experimentName := a.experimentName,
        variantId := p.2.variantId, variantName := a.variantName }))

/-- `recordExposure(experimentId, variantId)`: increment the count of an
existing record, else create one with count 1 at the current time. -/
def recordExposure (now : Int) (s : TrackerState) (experimentId variantId : String) :
    TrackerState :=
  match lookupA s.exposures experimentId with
  | some e =>
    { s with
      exposures := setA s.exposures experimentId
        { e with exposureCount := e.exposureCount + 1 } }
  | none =>
    { s with exposures := s.exposures ++ [(experimentId, ⟨variantId, now, 1⟩)] }

/-- `cleanupExpiredExposures()`: drop every record with
`now - exposedAt > windowMs`; the boolean is the `changed` flag that gates
the persistence write. -/
def cleanupExpiredExposures (now windowMs : Int) (exposures : List (String × Exposure)) :
    List (String × Exposure) × Bool :=
  (exposures.filter (fun p => !decide (now - p.2.exposedAt > windowMs)),
   exposures.any (fun p => decide (now - p.2.exposedAt > windowMs)))

/-- The session-scoped dedup key `` `${goal.id}_${this.sessionId}` ``. -/
def goalSessionKey (goalId sessionId : String) : String :=
  goalId ++ "_" ++ sessionId

/-- The experiments a conversion for this goal is attributed to: all exposed
experiments, filtered down to the goal's `experimentIds` when that list is
present and non-empty (`goal.experimentIds && goal.experimentIds.length > 0`). -/
def attributedFor (goal : GoalConfig) (s : TrackerState) : List AttributedExperiment :=
  match goal.experimentIds with
  | some ids =>
    if ids.isEmpty then getExposedExperiments s
    else (getExposedExperiments s).filter (fun e => ids.contains e.experimentId)
  | none => getExposedExperiments s

/-- Does the goal carry a non-empty `experimentIds` restriction? -/
def goalRestricts (goal : GoalConfig) : Bool :=
  match goal.experimentIds with
  | some ids => !ids.isEmpty
  | none => false

/-- `tryRecordConversion(goal)`: dedup on `(goalId, sessionId)`, then the
attribution gate (at least one exposure; if the goal restricts to experiment
ids, the attributed list is the intersection and must be non-empty), then
mark tracked and enqueue a GOAL_CONVERSION envelope. All trigger paths
(click, submit, scroll, element visibility, page view, custom event) funnel
into this method. -/
def tryRecordConversion (goal : GoalConfig) (s : TrackerState) : TrackerState :=
  let key := goalSessionKey goal.id s.sessionId
  if s.trackedGoals.contains key then s
  else if !hasAnyExposure s then s
  else if goalRestricts goal && (attributedFor goal s).isEmpty then s
  else
    enqueueEvent { s with trackedGoals := key :: s.trackedGoals }
      (.goalConversion goal.id goal.name goal.type (attributedFor goal s))

/-- Tail of the per-experiment loop body of `processExperiments` once the
variant is determined: record the exposure, then (only if the experiment is
not yet in `activeExperiments`) mark it active and enqueue EXPERIMENT_VIEW.
`applyChanges` mutates only the DOM and is outside the modelled state. -/
def afterAssignment (env : Env) (s : TrackerState) (exp : ExperimentConfig)
    (variantId : String) (variant : Option VariantConfig) : TrackerState :=
  let s1 := recordExposure env.now s exp.id variantId
  if s1.activeExperiments.contains exp.id then s1
  else
    enqueueEvent { s1 with activeExperiments := exp.id :: s1.activeExperiments }
      (.experimentView exp.id exp.name variantId (variant.bind (fun v => v.name))
        ((variant.bind (fun v => v.isControl)).getD false))

/-- The `if (!variantId)` branch of the `processExperiments` loop body:
sampling gate, bucketing, persist the fresh assignment, then the common tail. -/
def processAssignFresh (env : Env) (s : TrackerState) (exp : ExperimentConfig) :
    TrackerState :=
  if !isUserInSample s.visitorId exp.id exp.trafficAllocation then s
  else
    let variantId := bucket s.visitorId exp.id exp.variants
    let variant := exp.variants.find? (fun w => w.id == variantId)
    let s1 := { s with
      assignments := setA s.assignments exp.id
        { variantId := variantId, variantName := variant.bind (fun w => w.name),
          experimentName := exp.name, assignedAt := env.now } }
    afterAssignment env s1 exp variantId variant

/-- One iteration of the `for` loop of `processExperiments`: status gate, URL
gate (pattern tested against full URL and path), audience gate, then either
reuse the stored assignment (`let variantId = this.assignments[exp.id]?.variantId`,
re-bucketing only when that is JS-falsy, i.e. absent or the empty string) or
run the sampling gate, bucket, and persist a fresh assignment. -/
def processExperiment (env : Env) (s : TrackerState) (exp : ExperimentConfig) :
    TrackerState :=
  if exp.status != "RUNNING" then s
  else if !(env.regexTest exp.urlPattern env.url || env.regexTest exp.urlPattern env.path) then s
  else if (match exp.audiences with
    | some auds => !checkAudiences env auds
    | none => false) then s
  else
    match (lookupA s.assignments exp.id).map (fun a => a.variantId) with
    | some v =>
      if v.isEmpty then processAssignFresh env s exp
      else
        afterAssignment env s exp v (exp.variants.find? (fun w => w.id == v))
    | none => processAssignFresh env s exp

/-- `processExperiments()`: fold the loop body over the configured
experiments; no configuration means nothing to process. -/
def processExperiments (env : Env) (s : TrackerState) : TrackerState :=
  match s.config with
  | none => s
  | some cfg => cfg.experiments.foldl (processExperiment env) s

/-- `loadConfig()`: use a cached snapshot younger than the 60s TTL; else the
fetch result (`none` models any fetch failure: network error, timeout,
non-ok status, malformed body); on failure fall back to the stale cache if
one exists, else leave the configuration absent. -/
def loadConfig (now : Int) (cached : Option (Int × ProjectConfig))
    (fetchResult : Option ProjectConfig) : Option ProjectConfig :=
  match cached with
  | some (ts, dat) =>
    if now - ts < 60000 then some dat
    else
      match fetchResult with
      | some cfg => some cfg
      | none => some dat
  | none => fetchResult

/-- `init()`: load the configuration; when it is absent, reveal the page and
return without processing experiments or goals; otherwise process
experiments and reveal. (`setupGoals` only registers listeners.) -/
def init (env : Env) (s : TrackerState) (cached : Option (Int × ProjectConfig))
    (fetchResult : Option ProjectConfig) : TrackerState :=
  let cfg := loadConfig env.now cached fetchResult
  match cfg with
  | none => { s with config := none, revealed := true }
  | some _ =>
    let s2 := processExperiments env { s with config := cfg }
    { s2 with revealed := true }

/-- A page reload within the same session: the new instance re-reads
`visitorId`, `sessionId`, `assignments` and `exposures` from persistent
storage (and the config cache, still inside its TTL, yields the same
snapshot), while the in-memory `activeExperiments`, `trackedGoals` and
`eventQueue` start empty and the page starts hidden. -/
def reload (s : TrackerState) : TrackerState :=
  { s with activeExperiments := [], trackedGoals := [], eventQueue := [],
           revealed := false }

/-- Is this envelope a GOAL_CONVERSION for the given `(goalId, sessionId)` pair? -/
def isConversionFor (goalId sessionId : String) (e : Envelope) : Bool :=
  e.sessionId == sessionId &&
    match e.data with
    | .goalConversion gid _ _ _ => gid == goalId
    | _ => false

/-- Number of GOAL_CONVERSION envelopes for `(goalId, sessionId)` in a log. -/
def conversionCount (q : List Envelope) (goalId sessionId : String) : Nat :=
  (q.filter (isConversionFor goalId sessionId)).length

/-- Is this envelope an EXPERIMENT_VIEW for the given experiment? -/
def isViewFor (experimentId : String) (e : Envelope) : Bool :=
  match e.data with
  | .experimentView eid _ _ _ _ => eid == experimentId
  | _ => false

/-- Number of EXPERIMENT_VIEW envelopes for an experiment in a log. -/
def viewCount (q : List Envelope) (experimentId : String) : Nat :=
  (q.filter (isViewFor experimentId)).length

/-- A sequence of conversion attempts (any mix of click, submit, scroll,
visibility, page-view and custom-event triggers) within one page load, each
funnelling into `tryRecordConversion`. -/
def runConversions (goals : List GoalConfig) (s : TrackerState) : TrackerState :=
  goals.foldl (fun t g => tryRecordConversion g t) s

/-- Dedup invariant for one `(goalId, sessionId)` pair within one instance:
the log holds at most one matching conversion, and none at all while the
dedup key is untracked. -/
def convDedupInv (gid sid : String) (s : TrackerState) : Prop :=
  s.sessionId = sid ∧ conversionCount s.eventQueue gid sid ≤ 1 ∧
    (s.trackedGoals.contains (goalSessionKey gid sid) = false →
      conversionCount s.eventQueue gid sid = 0)

-- ------------------ Spec-side bucketing (for refinement) ------------------

/-- The hash as the spec describes it: rolling `hash ← 31 * hash + charCode`
truncated to 32 signed bits each step, absolute value at the end. -/
def hashCodeSpec (s : String) : Nat :=
  ((codeUnits s).foldl (fun (h : Int) (c : Nat) => toInt32 (31 * h + (c : Int))) 0).natAbs

/-- Cumulative `trafficWeight` of the first `i + 1` variants in declared order. -/
def cumulativeWeight (variants : List VariantConfig) (i : Nat) : Int :=
  ((variants.take (i + 1)).map (fun v => v.trafficWeight)).sum

/-- Bucketing as the spec describes it: the first variant (in declared order)
whose cumulative weight strictly exceeds the hash mod 100, with the first
declared variant as fallback when no cumulative weight exceeds it. -/
def bucketSpec (visitorId expId : String) (variants : List VariantConfig) : String :=
  let h : Int := (hashCodeSpec (visitorId ++ expId) % 100 : Nat)
  match (List.range variants.length).find? (fun i => decide (h < cumulativeWeight variants i)) with
  | some i => ((variants[i]?).map (fun v => v.id)).getD ""
  | none => ((variants.head?).map (fun v => v.id)).getD ""

-- ------------------------- Concrete fixtures ------------------------------

/-- An environment where every URL pattern matches. -/
def exEnv : Env :=
  { url := "u", path := "p", now := 0, regexTest := fun _ _ => true }

/-- A RUNNING experiment at full allocation with a single 100-weight variant. -/
def exExp : ExperimentConfig :=
  { id := "e", status := "RUNNING", trafficAllocation := 100, urlPattern := "x",
    variants := [{ id := "v1", trafficWeight := 100 }] }

def exCfg : ProjectConfig :=
  { projectId := "pr", experiments := [exExp], goals := [] }

/-- A fresh visitor state with the fixture configuration loaded. -/
def exState : TrackerState :=
  { visitorId := "v", sessionId := "s", config := some exCfg }

/-- State after the first page load of the fixture scenario. -/
def exLoad1 : TrackerState :=
  processExperiments exEnv exState

/-- State after reloading the page and re-processing in the same session. -/
def exLoad2 : TrackerState :=
  processExperiments exEnv (reload exLoad1)

/-- An unrestricted CLICK goal. -/
def exGoal : GoalConfig :=
  { id := "g", type := "CLICK" }

/-- A visitor with one exposure (and its assignment) for experiment `"e"`. -/
def exConvState : TrackerState :=
  { visitorId := "v", sessionId := "s",
    assignments := [("e", { variantId := "v1" })],
    exposures := [("e", { variantId := "v1", exposedAt := 0, exposureCount := 1 })] }

/-- First conversion attempt of the fixture session. -/
def exConv1 : TrackerState :=
  tryRecordConversion exGoal exConvState

/-- Second conversion attempt for the same goal, after a page reload in the
same session. -/
def exConv2 : TrackerState :=
  tryRecordConversion exGoal (reload exConv1)

/-- A state whose persisted assignment for `"e"` has an empty variantId
(JS-falsy), with the fixture configuration loaded. -/
def exEmptyVariantState : TrackerState :=
  { exState with assignments := [("e", { variantId := "" })] }

/-- An audience predicate with an unrecognised operator whose COOKIE lookup
misses. -/
def exAud : AudienceConfig :=
  { type := "COOKIE", key := some "k", operator := "FROBNICATE" }

/-- An environment with no cookies set. -/
def exAudEnv : Env :=
  { url := "u", path := "p", now := 0 }

/-- A CLICK goal restricted to an experiment the fixture visitor never saw. -/
def exRestrictedGoal : GoalConfig :=
  { id := "g2", type := "CLICK", experimentIds := some ["x"] }

-- ============================ Theorems ====================================

/-- C6: for every visitorId and experimentId and allocations A1 < A2, a
visitor admitted by the sampling gate at allocation A1 is admitted at A2. -/
theorem isUserInSample_monotone (visitorId expId : String) (a1 a2 : Int)
    (h12 : a1 < a2) (h1 : isUserInSample visitorId expId a1 = true) :
    isUserInSample visitorId expId a2 = true := by
  simp only [isUserInSample, decide_eq_true_eq] at h1 ⊢
  exact lt_trans h1 h12

set_option maxRecDepth 8000 in
theorem isUserInSample_monotone_witness :
    isUserInSample "v" "e" 101 = true :=
  isUserInSample_monotone "v" "e" 100 101 (by decide) (by decide)

/-- C7: a record exposed at time T with attribution window W survives a
cleanup run at any time strictly before T + W, is removed by a cleanup run
at any time strictly after T + W, and the persistence flag is set exactly
when some record was removed. -/
theorem cleanupExpiredExposures_window (now T W : Int)
    (exposures : List (String × Exposure)) (eid : String) (r : Exposure)
    (hmem : (eid, r) ∈ exposures) (hT : r.exposedAt = T) :
    (now < T + W → (eid, r) ∈ (cleanupExpiredExposures now W exposures).1) ∧
    (now > T + W → (eid, r) ∉ (cleanupExpiredExposures now W exposures).1) ∧
    ((cleanupExpiredExposures now W exposures).2 = true ↔
      ∃ p ∈ exposures, now - p.2.exposedAt > W) := by
  refine ⟨?_, ?_, ?_⟩
  · intro hlt
    simp only [cleanupExpiredExposures, List.mem_filter]
    refine ⟨hmem, ?_⟩
    simp only [hT, Bool.not_eq_eq_eq_not, Bool.not_true, decide_eq_false_iff_not]
    omega
  · intro hgt hmem'
    simp only [cleanupExpiredExposures, List.mem_filter, hT, Bool.not_eq_eq_eq_not,
      Bool.not_true, decide_eq_false_iff_not] at hmem'
    omega
  · simp only [cleanupExpiredExposures, List.any_eq_true, decide_eq_true_eq]

theorem cleanupExpiredExposures_window_witness :
    (("e", ({ variantId := "v1", exposedAt := 0, exposureCount := 1 } : Exposure)) ∈
      (cleanupExpiredExposures 9 10
        [("e", { variantId := "v1", exposedAt := 0, exposureCount := 1 })]).1) ∧
    (("e", ({ variantId := "v1", exposedAt := 0, exposureCount := 1 } : Exposure)) ∉
      (cleanupExpiredExposures 11 10
        [("e", { variantId := "v1", exposedAt := 0, exposureCount := 1 })]).1) :=
  ⟨(cleanupExpiredExposures_window 9 0 10 _ "e" _ (by simp) rfl).1 (by decide),
   (cleanupExpiredExposures_window 11 0 10 _ "e" _ (by simp) rfl).2.1 (by decide)⟩

/-- C8: when the configuration fetch fails and there is no cached snapshot,
initialization leaves the configuration absent, enqueues nothing, touches no
assignment or exposure state, and reveals the page. -/
theorem init_fetch_failure_no_cache (env : Env) (s : TrackerState) :
    (init env s none none).config = none ∧
    (init env s none none).eventQueue = s.eventQueue ∧
    (init env s none none).assignments = s.assignments ∧
    (init env s none none).exposures = s.exposures ∧
    (init env s none none).revealed = true := by
  simp [init, loadConfig]

/-- An unrecognised operator string reaches the default branch of the
operator switch, which returns `true`. -/
theorem evalOperator_default (env : Env) (op : String) (v : String)
    (val : Option String) (h : recognizedOperator op = false) :
    evalOperator env op v val = true := by
  unfold evalOperator
  split
  all_goals try rfl
  all_goals simp [recognizedOperator] at h

/-- C10 counterexample: a predicate with the unrecognised operator
`"FROBNICATE"` whose COOKIE lookup misses evaluates to `false`, while the
claim says every unrecognised-operator predicate is treated as matched. -/
theorem audience_unknown_operator_cex :
    recognizedOperator exAud.operator = false ∧ evalAudience exAudEnv exAud = false := by
  decide

/-- C10 (amended): a predicate whose type is unrecognised always matches; a
predicate whose operator is unrecognised matches provided its resolved user
value is non-null (a null/undefined lookup fails the predicate before the
operator switch is reached); an experiment whose audiences contain only
unrecognised-type entries targets every visitor. -/
theorem audience_unrecognized_default (env : Env) :
    (∀ aud : AudienceConfig, recognizedAudienceType aud.type = false →
      evalAudience env aud = true) ∧
    (∀ aud : AudienceConfig, ∀ v : String, recognizedOperator aud.operator = false →
      resolveUserValue env aud = some v → evalAudience env aud = true) ∧
    (∀ audiences : List AudienceConfig,
      (∀ aud ∈ audiences, recognizedAudienceType aud.type = false) →
      checkAudiences env audiences = true) := by
  have h1 : ∀ aud : AudienceConfig, recognizedAudienceType aud.type = false →
      evalAudience env aud = true := by
    intro aud h
    simp [evalAudience, h]
  refine ⟨h1, ?_, ?_⟩
  · intro aud v hop hres
    unfold evalAudience
    split
    · rw [hres]
      exact evalOperator_default env aud.operator v aud.value hop
    · rfl
  · intro audiences hall
    simp only [checkAudiences, List.all_eq_true]
    intro aud hmem
    exact h1 aud (hall aud hmem)

theorem audience_unrecognized_default_witness :
    evalAudience exAudEnv { type := "WEATHER", operator := "IS" } = true ∧
    evalAudience exAudEnv { type := "DEVICE", operator := "FROBNICATE" } = true :=
  ⟨(audience_unrecognized_default exAudEnv).1 _ (by decide),
   (audience_unrecognized_default exAudEnv).2.1 _ "desktop" (by decide) (by decide)⟩

/-- A conversion attempt with no exposure at all returns the state unchanged. -/
theorem trc_noop_of_no_exposure (goal : GoalConfig) (s : TrackerState)
    (h : s.exposures = []) : tryRecordConversion goal s = s := by
  have hA : hasAnyExposure s = false := by simp [hasAnyExposure, h]
  unfold tryRecordConversion
  simp [hA]

/-- A conversion attempt for a goal restricted to experiment ids disjoint
from the visitor's exposed experiments returns the state unchanged. -/
theorem trc_noop_of_disjoint (goal : GoalConfig) (s : TrackerState) (ids : List String)
    (hids : goal.experimentIds = some ids) (hne : ids ≠ [])
    (hfilter : (getExposedExperiments s).filter (fun e => ids.contains e.experimentId) = []) :
    tryRecordConversion goal s = s := by
  have hne' : ids.isEmpty = false := by
    cases ids with
    | nil => exact absurd rfl hne
    | cons a l => rfl
  have h1 : goalRestricts goal = true := by
    simp [goalRestricts, hids, hne']
  have h2 : attributedFor goal s = [] := by
    simp only [attributedFor, hids, hne', Bool.false_eq_true, if_false]
    exact hfilter
  unfold tryRecordConversion
  simp [h1, h2]

/-- A conversion attempt either leaves the enqueue log unchanged or appends
exactly one GOAL_CONVERSION envelope carrying the attributed experiments. -/
theorem trc_queue_cases (goal : GoalConfig) (s : TrackerState) :
    (tryRecordConversion goal s).eventQueue = s.eventQueue ∨
    (tryRecordConversion goal s).eventQueue = s.eventQueue ++
      [{ visitorId := s.visitorId, sessionId := s.sessionId,
         data := EventData.goalConversion goal.id goal.name goal.type
           (attributedFor goal s) }] := by
  unfold tryRecordConversion
  by_cases hm : s.trackedGoals.contains (goalSessionKey goal.id s.sessionId) = true
  · rw [if_pos hm]
    exact Or.inl rfl
  · rw [if_neg hm]
    by_cases h2 : (!hasAnyExposure s) = true
    · rw [if_pos h2]
      exact Or.inl rfl
    · rw [if_neg h2]
      by_cases h3 : (goalRestricts goal && (attributedFor goal s).isEmpty) = true
      · rw [if_pos h3]
        exact Or.inl rfl
      · rw [if_neg h3]
        exact Or.inr rfl

/-- C9: a conversion attempt rejected by the attribution gate (no exposure,
or an empty intersection with the goal's restricting experiment ids) leaves
the whole tracker state unchanged — in particular the dedup key is not
tracked and nothing is enqueued, so a later attempt in the same session is
unaffected. -/
theorem tryRecordConversion_rejected_noop (goal : GoalConfig) (s : TrackerState)
    (h : s.exposures = [] ∨ ∃ ids, goal.experimentIds = some ids ∧ ids ≠ [] ∧
      (getExposedExperiments s).filter (fun e => ids.contains e.experimentId) = []) :
    tryRecordConversion goal s = s := by
  rcases h with h | ⟨ids, hids, hne, hfilter⟩
  · exact trc_noop_of_no_exposure goal s h
  · exact trc_noop_of_disjoint goal s ids hids hne hfilter

theorem tryRecordConversion_rejected_noop_witness :
    tryRecordConversion exGoal { visitorId := "v", sessionId := "s" } =
      { visitorId := "v", sessionId := "s" } :=
  tryRecordConversion_rejected_noop exGoal _ (Or.inl rfl)

/-- C1: a conversion attempt enqueues nothing when the exposure map is
empty; it enqueues nothing when the goal's non-empty experiment-id
restriction is disjoint from the visitor's exposed experiments; and any
envelope it does enqueue is a single GOAL_CONVERSION whose
attributedExperiments is exactly the intersection of the exposed experiments
with the restriction (or all exposed experiments when unrestricted). -/
theorem tryRecordConversion_attribution (goal : GoalConfig) (s : TrackerState) :
    (s.exposures = [] → (tryRecordConversion goal s).eventQueue = s.eventQueue) ∧
    (∀ ids, goal.experimentIds = some ids → ids ≠ [] →
      (getExposedExperiments s).filter (fun e => ids.contains e.experimentId) = [] →
      (tryRecordConversion goal s).eventQueue = s.eventQueue) ∧
    ((tryRecordConversion goal s).eventQueue = s.eventQueue ∨
      (tryRecordConversion goal s).eventQueue = s.eventQueue ++
        [{ visitorId := s.visitorId, sessionId := s.sessionId,
           data := EventData.goalConversion goal.id goal.name goal.type
             (match goal.experimentIds with
              | some ids =>
                if ids.isEmpty then getExposedExperiments s
                else (getExposedExperiments s).filter (fun e => ids.contains e.experimentId)
              | none => getExposedExperiments s) }]) :=
  ⟨fun h => by rw [trc_noop_of_no_exposure goal s h],
   fun ids hids hne hf => by rw [trc_noop_of_disjoint goal s ids hids hne hf],
   trc_queue_cases goal s⟩

theorem tryRecordConversion_attribution_witness :
    (tryRecordConversion exGoal { visitorId := "v", sessionId := "s" }).eventQueue =
      ({ visitorId := "v", sessionId := "s" } : TrackerState).eventQueue ∧
    (tryRecordConversion exRestrictedGoal exConvState).eventQueue =
      exConvState.eventQueue :=
  ⟨(tryRecordConversion_attribution exGoal _).1 rfl,
   (tryRecordConversion_attribution exRestrictedGoal exConvState).2.1 ["x"] rfl
     (by decide) (by decide)⟩

/-- Conversion counts add over concatenated logs. -/
theorem conversionCount_append (q1 q2 : List Envelope) (gid sid : String) :
    conversionCount (q1 ++ q2) gid sid =
      conversionCount q1 gid sid + conversionCount q2 gid sid := by
  simp [conversionCount, List.filter_append]

/-- Appending one envelope adds its own contribution to the count. -/
theorem conversionCount_snoc (q : List Envelope) (e : Envelope) (gid sid : String) :
    conversionCount (q ++ [e]) gid sid =
      conversionCount q gid sid + (if isConversionFor gid sid e = true then 1 else 0) := by
  by_cases he : isConversionFor gid sid e = true <;>
    simp [conversionCount, List.filter_append, List.filter_cons, he]

/-- `tryRecordConversion` preserves the per-pair dedup invariant. -/
theorem trc_preserves_inv (gid sid : String) (goal : GoalConfig) (s : TrackerState)
    (h : convDedupInv gid sid s) : convDedupInv gid sid (tryRecordConversion goal s) := by
  obtain ⟨hsid, hle, hz⟩ := h
  subst hsid
  unfold tryRecordConversion
  by_cases hm : s.trackedGoals.contains (goalSessionKey goal.id s.sessionId) = true
  · rw [if_pos hm]
    exact ⟨rfl, hle, hz⟩
  · rw [if_neg hm]
    by_cases h2 : (!hasAnyExposure s) = true
    · rw [if_pos h2]
      exact ⟨rfl, hle, hz⟩
    · rw [if_neg h2]
      by_cases h3 : (goalRestricts goal && (attributedFor goal s).isEmpty) = true
      · rw [if_pos h3]
        exact ⟨rfl, hle, hz⟩
      · rw [if_neg h3]
        have hm' : s.trackedGoals.contains (goalSessionKey goal.id s.sessionId) = false := by
          simpa using hm
        refine ⟨rfl, ?_, ?_⟩
        · show conversionCount
            (s.eventQueue ++ [⟨s.visitorId, s.sessionId,
              .goalConversion goal.id goal.name goal.type (attributedFor goal s)⟩])
            gid s.sessionId ≤ 1
          rw [conversionCount_snoc]
          by_cases hg : goal.id = gid
          · subst hg
            rw [hz hm']
            split <;> omega
          · have hb : (goal.id == gid) = false := beq_eq_false_iff_ne.mpr hg
            have hfalse : isConversionFor gid s.sessionId
                ⟨s.visitorId, s.sessionId,
                  .goalConversion goal.id goal.name goal.type (attributedFor goal s)⟩ = false := by
              simp [isConversionFor, hb]
            rw [hfalse]
            simpa using hle
        · intro hc
          have hc2 : ((goalSessionKey goal.id s.sessionId :: s.trackedGoals).contains
              (goalSessionKey gid s.sessionId)) = false := hc
          rw [List.contains_cons] at hc2
          have hc3 : (goalSessionKey gid s.sessionId ==
                goalSessionKey goal.id s.sessionId) = false ∧
              s.trackedGoals.contains (goalSessionKey gid s.sessionId) = false := by
            constructor
            · cases hx : (goalSessionKey gid s.sessionId ==
                  goalSessionKey goal.id s.sessionId) with
              | false => rfl
              | true => rw [hx] at hc2; simp at hc2
            · cases hx : s.trackedGoals.contains (goalSessionKey gid s.sessionId) with
              | false => rfl
              | true => rw [hx] at hc2; simp at hc2
          have hg : goal.id ≠ gid := by
            intro hgg
            subst hgg
            simp at hc3
          have hb : (goal.id == gid) = false := beq_eq_false_iff_ne.mpr hg
          show conversionCount
            (s.eventQueue ++ [⟨s.visitorId, s.sessionId,
              .goalConversion goal.id goal.name goal.type (attributedFor goal s)⟩])
            gid s.sessionId = 0
          rw [conversionCount_snoc, hz hc3.2]
          have hfalse : isConversionFor gid s.sessionId
              ⟨s.visitorId, s.sessionId,
                .goalConversion goal.id goal.name goal.type (attributedFor goal s)⟩ = false := by
            simp [isConversionFor, hb]
          rw [hfalse]
          simp

/-- Any sequence of conversion attempts preserves the dedup invariant. -/
theorem runConversions_preserves_inv (goals : List GoalConfig) (gid sid : String)
    (s : TrackerState) (h : convDedupInv gid sid s) :
    convDedupInv gid sid (runConversions goals s) := by
  induction goals generalizing s with
  | nil => exact h
  | cons g gs ih => exact ih (tryRecordConversion g s) (trc_preserves_inv gid sid g s h)

/-- C2 counterexample: the fixture session enqueues two GOAL_CONVERSION
envelopes for the pair `("g", "s")` — one before and one after a page
reload inside the same session — because the dedup set `trackedGoals` is an
in-memory `Set` that a reload resets while the session id survives. -/
theorem conversion_dedup_reload_cex :
    conversionCount (exConv1.eventQueue ++ exConv2.eventQueue) "g" "s" = 2 := by
  decide

/-- C2 (amended): within a single page load (one tracker instance), any
sequence of conversion attempts enqueues at most one GOAL_CONVERSION
envelope per (goalId, sessionId) pair; the dedup set is in-memory only, so
the guarantee does not extend across a page reload within the session. -/
theorem conversion_dedup_within_page_load (goals : List GoalConfig)
    (s : TrackerState) (gid : String)
    (hq : s.eventQueue = []) (_ht : s.trackedGoals = []) :
    conversionCount (runConversions goals s).eventQueue gid s.sessionId ≤ 1 := by
  have h0 : convDedupInv gid s.sessionId s := by
    refine ⟨rfl, ?_, ?_⟩ <;> simp [conversionCount, hq]
  exact (runConversions_preserves_inv goals gid s.sessionId s h0).2.1

theorem conversion_dedup_within_page_load_witness :
    conversionCount (runConversions [exGoal, exGoal] exConvState).eventQueue "g"
      exConvState.sessionId ≤ 1 :=
  conversion_dedup_within_page_load [exGoal, exGoal] exConvState "g" rfl rfl

/-- Unfolding `lookupA` over a cons cell. -/
theorem lookupA_cons {α : Type} (x : String × α) (t : List (String × α)) (k : String) :
    lookupA (x :: t) k = if x.1 == k then some x.2 else lookupA t k := by
  by_cases h : (x.1 == k) = true <;> simp [lookupA, List.find?_cons, h]

/-- `lookupA` over an append takes the first hit. -/
theorem lookupA_append {α : Type} (m1 m2 : List (String × α)) (k : String) :
    lookupA (m1 ++ m2) k =
      match lookupA m1 k with
      | some v => some v
      | none => lookupA m2 k := by
  induction m1 with
  | nil => simp [lookupA]
  | cons x t ih =>
    by_cases h : (x.1 == k) = true <;>
      simp [List.cons_append, lookupA_cons, h, ih]

/-- Overwriting every entry with key `k` makes `k` look up the new value. -/
theorem lookupA_map_set {α : Type} (m : List (String × α)) (k : String) (v : α)
    (h : (lookupA m k).isSome = true) :
    lookupA (m.map (fun p => if p.1 == k then (p.1, v) else p)) k = some v := by
  induction m with
  | nil => simp [lookupA] at h
  | cons x t ih =>
    rw [lookupA_cons] at h
    by_cases hx : (x.1 == k) = true
    · rw [List.map_cons, if_pos hx, lookupA_cons]
      dsimp only
      rw [if_pos hx]
    · rw [if_neg hx] at h
      rw [List.map_cons, if_neg hx, lookupA_cons, if_neg hx]
      exact ih h

/-- Overwriting key `k` does not disturb lookups of other keys. -/
theorem lookupA_map_set_ne {α : Type} (m : List (String × α)) (k : String) (v : α)
    (k' : String) (hne : k ≠ k') :
    lookupA (m.map (fun p => if p.1 == k then (p.1, v) else p)) k' = lookupA m k' := by
  induction m with
  | nil => simp [lookupA]
  | cons x t ih =>
    rw [List.map_cons, lookupA_cons, lookupA_cons]
    by_cases hx : (x.1 == k) = true
    · rw [if_pos hx]
      dsimp only
      have hk' : (x.1 == k') = false := by
        have he : x.1 = k := by simpa using hx
        rw [he]
        exact beq_eq_false_iff_ne.mpr hne
      rw [if_neg (by simp [hk']), if_neg (by simp [hk'])]
      exact ih
    · rw [if_neg hx]
      by_cases hx' : (x.1 == k') = true
      · rw [if_pos hx', if_pos hx']
      · rw [if_neg hx', if_neg hx']
        exact ih

/-- `setA` makes its key look up its value. -/
theorem lookupA_setA_self {α : Type} (m : List (String × α)) (k : String) (v : α) :
    lookupA (setA m k v) k = some v := by
  unfold setA
  by_cases h : (lookupA m k).isSome = true
  · rw [if_pos h]
    exact lookupA_map_set m k v h
  · rw [if_neg h]
    have hn : lookupA m k = none := by
      cases hm : lookupA m k with
      | none => rfl
      | some w => rw [hm] at h; simp at h
    rw [lookupA_append, hn]
    simp [lookupA]

/-- `setA` does not disturb lookups of other keys. -/
theorem lookupA_setA_ne {α : Type} (m : List (String × α)) (k : String) (v : α)
    (k' : String) (hne : k ≠ k') :
    lookupA (setA m k v) k' = lookupA m k' := by
  unfold setA
  by_cases h : (lookupA m k).isSome = true
  · rw [if_pos h]
    exact lookupA_map_set_ne m k v k' hne
  · rw [if_neg h]
    rw [lookupA_append]
    cases hm : lookupA m k' with
    | some w => rfl
    | none => simp [lookupA, List.find?_cons, beq_eq_false_iff_ne.mpr hne]

/-- `recordExposure` touches only the exposure map. -/
theorem recordExposure_skeleton (now : Int) (s : TrackerState) (eid vid : String) :
    (recordExposure now s eid vid).assignments = s.assignments ∧
    (recordExposure now s eid vid).activeExperiments = s.activeExperiments ∧
    (recordExposure now s eid vid).eventQueue = s.eventQueue ∧
    (recordExposure now s eid vid).visitorId = s.visitorId ∧
    (recordExposure now s eid vid).sessionId = s.sessionId := by
  unfold recordExposure
  cases lookupA s.exposures eid <;> exact ⟨rfl, rfl, rfl, rfl, rfl⟩

/-- Re-recording an existing exposure increments its count in place. -/
theorem recordExposure_count (now : Int) (s : TrackerState) (eid vid : String)
    (e : Exposure) (h : lookupA s.exposures eid = some e) :
    (lookupA (recordExposure now s eid vid).exposures eid).map (fun r => r.exposureCount) =
      some (e.exposureCount + 1) := by
  unfold recordExposure
  rw [h]
  dsimp only
  rw [lookupA_setA_self]
  rfl

/-- An appended EXPERIMENT_VIEW envelope for `eid` bumps `viewCount eid` by one. -/
theorem viewCount_snoc_view (q : List Envelope) (vid sid eid : String)
    (en : Option String) (vI : String) (vn : Option String) (ic : Bool) :
    viewCount (q ++ [⟨vid, sid, .experimentView eid en vI vn ic⟩]) eid =
      viewCount q eid + 1 := by
  simp [viewCount, List.filter_append, List.filter_cons, isViewFor]

/-- Behaviour of the common tail of the experiment loop: assignments are
untouched, the exposure map is updated, and EXPERIMENT_VIEW is enqueued
exactly when the experiment is not yet in the in-memory active set. -/
theorem afterAssignment_spec (env : Env) (s : TrackerState) (exp : ExperimentConfig)
    (vid : String) (var : Option VariantConfig) :
    (afterAssignment env s exp vid var).assignments = s.assignments ∧
    (afterAssignment env s exp vid var).exposures =
      (recordExposure env.now s exp.id vid).exposures ∧
    (s.activeExperiments.contains exp.id = true →
      (afterAssignment env s exp vid var).eventQueue = s.eventQueue) ∧
    (s.activeExperiments.contains exp.id = false →
      (afterAssignment env s exp vid var).eventQueue = s.eventQueue ++
        [⟨s.visitorId, s.sessionId, .experimentView exp.id exp.name vid
            (var.bind (fun v => v.name)) ((var.bind (fun v => v.isControl)).getD false)⟩]) := by
  obtain ⟨hassign, hact, hqueue, hvis, hsid⟩ := recordExposure_skeleton env.now s exp.id vid
  simp only [afterAssignment]
  rw [hact]
  by_cases hc : s.activeExperiments.contains exp.id = true
  · rw [if_pos hc]
    refine ⟨hassign, rfl, fun _ => hqueue, fun hfc => ?_⟩
    rw [hc] at hfc
    exact absurd hfc (by simp)
  · rw [if_neg hc]
    refine ⟨hassign, rfl, fun htc => absurd htc hc, fun _ => ?_⟩
    show (recordExposure env.now s exp.id vid).eventQueue ++ _ = _
    rw [hqueue, hvis, hsid]

set_option maxRecDepth 8000 in
/-- C3 counterexample: in the fixture scenario a reload reuses the persisted
assignment and bumps the exposure count to 2, but a second EXPERIMENT_VIEW
envelope for the experiment IS enqueued in the same session, because the
view-dedup set `activeExperiments` is in-memory and resets on reload. -/
theorem experiment_view_reload_cex :
    exLoad2.assignments = exLoad1.assignments ∧
    (lookupA exLoad2.exposures "e").map (fun e => e.exposureCount) = some 2 ∧
    viewCount (exLoad1.eventQueue ++ exLoad2.eventQueue) "e" = 2 := by
  decide

/-- C3 (amended): re-processing a matching RUNNING experiment whose
assignment (with a non-empty stored variantId) is already persisted creates
no new assignment and increments the exposure count; but the EXPERIMENT_VIEW
dedup is per tracker instance: the view is suppressed only when the
experiment is already in the in-memory active set (as on an SPA navigation),
and a reload — which resets that set — enqueues a second view envelope. -/
theorem processExperiment_reload_behavior (env : Env) (s : TrackerState)
    (exp : ExperimentConfig) (a : Assignment)
    (hstatus : exp.status = "RUNNING")
    (hurl : (env.regexTest exp.urlPattern env.url ||
      env.regexTest exp.urlPattern env.path) = true)
    (haud : (match exp.audiences with
      | some auds => checkAudiences env auds
      | none => true) = true)
    (ha : lookupA s.assignments exp.id = some a)
    (hv : a.variantId ≠ "") :
    (processExperiment env s exp).assignments = s.assignments ∧
    (∀ r : Exposure, lookupA s.exposures exp.id = some r →
      (lookupA (processExperiment env s exp).exposures exp.id).map
        (fun e => e.exposureCount) = some (r.exposureCount + 1)) ∧
    (s.activeExperiments.contains exp.id = true →
      (processExperiment env s exp).eventQueue = s.eventQueue) ∧
    (s.activeExperiments.contains exp.id = false →
      viewCount (processExperiment env s exp).eventQueue exp.id =
        viewCount s.eventQueue exp.id + 1) := by
  have h1 : (exp.status != "RUNNING") = false := by simp [hstatus]
  have h2 : (!(env.regexTest exp.urlPattern env.url ||
      env.regexTest exp.urlPattern env.path)) = false := by simp [hurl]
  have h3 : (match exp.audiences with
      | some auds => !checkAudiences env auds
      | none => false) = false := by
    cases hauds : exp.audiences with
    | none => rfl
    | some l =>
      rw [hauds] at haud
      simp only [] at haud
      simp [haud]
  have h4 : a.variantId.isEmpty = false := by
    rw [Bool.eq_false_iff]
    intro he
    exact hv ((String.isEmpty_iff _).mp he)
  have hred : processExperiment env s exp =
      afterAssignment env s exp a.variantId
        (exp.variants.find? (fun w => w.id == a.variantId)) := by
    unfold processExperiment
    rw [h1, h2, h3]
    simp only [Bool.false_eq_true, if_false, ha, Option.map_some']
    rw [h4]
    simp
  obtain ⟨hassign, hexpos, hqt, hqf⟩ := afterAssignment_spec env s exp a.variantId
    (exp.variants.find? (fun w => w.id == a.variantId))
  rw [hred]
  refine ⟨hassign, ?_, hqt, ?_⟩
  · intro r hr
    rw [hexpos]
    exact recordExposure_count env.now s exp.id a.variantId r hr
  · intro hfc
    rw [hqf hfc, viewCount_snoc_view]

set_option maxRecDepth 8000 in
theorem processExperiment_reload_behavior_witness :
    (processExperiment exEnv (reload exLoad1) exExp).assignments =
      (reload exLoad1).assignments ∧
    viewCount (processExperiment exEnv (reload exLoad1) exExp).eventQueue exExp.id =
      viewCount (reload exLoad1).eventQueue exExp.id + 1 := by
  have h := processExperiment_reload_behavior exEnv (reload exLoad1) exExp
    { variantId := "v1", variantName := none, experimentName := none, assignedAt := 0 }
    (by decide) (by decide) (by decide) (by decide) (by decide)
  exact ⟨h.1, h.2.2.2 (by decide)⟩

/-- `toInt32` with the powers of two spelled out. -/
theorem toInt32_eq (x : Int) : toInt32 x = (x + 2147483648) % 4294967296 - 2147483648 := by
  unfold toInt32
  norm_num

/-- `toInt32` only depends on the argument modulo 2^32. -/
theorem toInt32_congr (x y : Int) (h : x % 4294967296 = y % 4294967296) :
    toInt32 x = toInt32 y := by
  rw [toInt32_eq, toInt32_eq]
  omega

/-- `(hash << 5) - hash + char` truncated equals `31 * hash + char` truncated. -/
theorem hashStep_eq (h : Int) (c : Nat) : hashStep h c = toInt32 (31 * h + (c : Int)) := by
  unfold hashStep
  apply toInt32_congr
  have h1 : toInt32 (32 * h) % 4294967296 = (32 * h) % 4294967296 := by
    rw [toInt32_eq]
    omega
  omega

/-- The source hash coincides with the spec's `31 * hash + char` formulation. -/
theorem hashCode_eq_spec (s : String) : hashCode s = hashCodeSpec s := by
  unfold hashCode hashCodeSpec
  congr 1
  have key : ∀ (l : List Nat) (a : Int),
      l.foldl hashStep a =
        l.foldl (fun (h : Int) (c : Nat) => toInt32 (31 * h + (c : Int))) a := by
    intro l
    induction l with
    | nil => intro a; rfl
    | cons c t ih =>
      intro a
      rw [List.foldl_cons, List.foldl_cons, hashStep_eq, ih]
  exact key (codeUnits s) 0

/-- `cumulativeWeight` at index 0 of a cons cell. -/
theorem cumulativeWeight_zero (v : VariantConfig) (t : List VariantConfig) :
    cumulativeWeight (v :: t) 0 = v.trafficWeight := by
  simp [cumulativeWeight]

/-- `cumulativeWeight` at a successor index of a cons cell. -/
theorem cumulativeWeight_succ (v : VariantConfig) (t : List VariantConfig) (i : Nat) :
    cumulativeWeight (v :: t) (i + 1) = v.trafficWeight + cumulativeWeight t i := by
  simp [cumulativeWeight, List.take_succ_cons]

/-- The accumulation loop of `bucket` returns exactly the first index whose
cumulative weight strictly exceeds the hash value. -/
theorem bucketLoop_find (h : Int) (vs : List VariantConfig) (acc : Int) :
    bucketLoop h vs acc =
      ((List.range vs.length).find?
          (fun i => decide (h < acc + cumulativeWeight vs i))).bind
        (fun i => (vs[i]?).map (fun v => v.id)) := by
  induction vs generalizing acc with
  | nil => simp [bucketLoop]
  | cons v t ih =>
    simp only [bucketLoop]
    rw [List.length_cons, List.range_succ_eq_map]
    by_cases hlt : h < acc + v.trafficWeight
    · rw [if_pos hlt]
      rw [List.find?_cons_of_pos _ (by
        rw [decide_eq_true_eq, cumulativeWeight_zero]
        exact hlt)]
      simp
    · rw [if_neg hlt]
      rw [List.find?_cons_of_neg _ (by
        simp only [decide_eq_true_eq, cumulativeWeight_zero]
        exact hlt)]
      rw [List.find?_map]
      have hstep : ((fun i => decide (h < acc + cumulativeWeight (v :: t) i)) ∘ Nat.succ) =
          (fun i => decide (h < acc + v.trafficWeight + cumulativeWeight t i)) := by
        funext i
        simp only [Function.comp, Nat.succ_eq_add_one]
        rw [cumulativeWeight_succ, ← add_assoc]
      rw [hstep, ih (acc + v.trafficWeight)]
      cases hf : (List.range t.length).find?
          (fun i => decide (h < acc + v.trafficWeight + cumulativeWeight t i)) with
      | none => simp
      | some j => simp [List.getElem?_cons_succ]

/-- C4: for every visitorId, experimentId and non-empty variant list, the
source `bucket` (rolling shift-5-minus-self hash truncated to int32,
absolute value, walk accumulating weights, first-variant fallback) agrees
with the spec-side description `bucketSpec` (31·h + c hash, first variant
whose cumulative weight strictly exceeds hash mod 100, first declared
variant as fallback). -/
theorem bucket_matches_spec (visitorId expId : String) (variants : List VariantConfig)
    (_hne : variants ≠ []) :
    bucket visitorId expId variants = bucketSpec visitorId expId variants := by
  simp only [bucket, bucketSpec]
  rw [hashCode_eq_spec, bucketLoop_find]
  rw [show (fun i => decide
        (((hashCodeSpec (visitorId ++ expId) % 100 : Nat) : Int) <
          0 + cumulativeWeight variants i)) =
      (fun i => decide
        (((hashCodeSpec (visitorId ++ expId) % 100 : Nat) : Int) <
          cumulativeWeight variants i)) from by
    funext i
    rw [zero_add]]
  cases hf : (List.range variants.length).find?
      (fun i => decide
        (((hashCodeSpec (visitorId ++ expId) % 100 : Nat) : Int) <
          cumulativeWeight variants i)) with
  | none => simp
  | some i =>
    have hi : i < variants.length :=
      List.mem_range.mp (List.mem_of_find?_eq_some hf)
    have hv : variants[i]? = some variants[i] := List.getElem?_eq_getElem hi
    simp [hv]

set_option maxRecDepth 8000 in
theorem bucket_matches_spec_witness :
    bucket "v" "e" exExp.variants = bucketSpec "v" "e" exExp.variants :=
  bucket_matches_spec "v" "e" exExp.variants (by decide)

/-- `processAssignFresh` never disturbs the assignment stored for another
experiment id. -/
theorem processAssignFresh_keeps (env : Env) (s : TrackerState) (exp : ExperimentConfig)
    (eid : String) (a : Assignment) (ha : lookupA s.assignments eid = some a)
    (hne : exp.id ≠ eid) :
    lookupA (processAssignFresh env s exp).assignments eid = some a := by
  simp only [processAssignFresh]
  by_cases hs : (!isUserInSample s.visitorId exp.id exp.trafficAllocation) = true
  · rw [if_pos hs]
    exact ha
  · rw [if_neg hs]
    rw [(afterAssignment_spec env _ exp _ _).1]
    rw [lookupA_setA_ne _ _ _ _ hne]
    exact ha

/-- One pass of the experiment loop preserves any persisted assignment whose
variantId is a non-empty string, whatever the experiment's weights are. -/
theorem processExperiment_keeps_assignment (env : Env) (s : TrackerState)
    (exp : ExperimentConfig) (eid : String) (a : Assignment)
    (ha : lookupA s.assignments eid = some a) (hv : a.variantId ≠ "") :
    lookupA (processExperiment env s exp).assignments eid = some a := by
  unfold processExperiment
  by_cases c1 : (exp.status != "RUNNING") = true
  · rw [if_pos c1]
    exact ha
  · rw [if_neg c1]
    by_cases c2 : (!(env.regexTest exp.urlPattern env.url ||
        env.regexTest exp.urlPattern env.path)) = true
    · rw [if_pos c2]
      exact ha
    · rw [if_neg c2]
      by_cases c3 : (match exp.audiences with
          | some auds => !checkAudiences env auds
          | none => false) = true
      · rw [if_pos c3]
        exact ha
      · rw [if_neg c3]
        by_cases he : exp.id = eid
        · subst he
          rw [ha]
          simp only [Option.map_some']
          have h4 : a.variantId.isEmpty = false := by
            rw [Bool.eq_false_iff]
            intro hemp
            exact hv ((String.isEmpty_iff _).mp hemp)
          rw [if_neg (by simp [h4])]
          rw [(afterAssignment_spec env s exp _ _).1]
          exact ha
        · cases hst : lookupA s.assignments exp.id with
          | none =>
            simp only [hst, Option.map_none']
            exact processAssignFresh_keeps env s exp eid a ha he
          | some b =>
            simp only [hst, Option.map_some']
            by_cases hbe : b.variantId.isEmpty = true
            · rw [if_pos hbe]
              exact processAssignFresh_keeps env s exp eid a ha he
            · rw [if_neg hbe]
              rw [(afterAssignment_spec env s exp _ _).1]
              exact ha

set_option maxRecDepth 8000 in
/-- C5 counterexample: an assignment persisted with an empty-string
variantId is JS-falsy, so re-processing re-buckets and overwrites it: the
stored variantId changes from `""` to `"v1"`. -/
theorem assignment_stability_cex :
    (lookupA exEmptyVariantState.assignments "e").map (fun a => a.variantId) = some "" ∧
    (lookupA (processExperiments exEnv exEmptyVariantState).assignments "e").map
      (fun a => a.variantId) = some "v1" := by
  decide

/-- C5 (amended): a persisted assignment whose stored variantId is a
non-empty string is reused verbatim by experiment processing — under any
environment and any (possibly re-weighted) configuration — without
re-bucketing; an assignment stored with the empty string is treated as
absent by the JS falsiness check and is re-bucketed. -/
theorem assignment_stability (env : Env) (s : TrackerState) (eid : String)
    (a : Assignment) (ha : lookupA s.assignments eid = some a)
    (hv : a.variantId ≠ "") :
    lookupA (processExperiments env s).assignments eid = some a := by
  have key : ∀ (exps : List ExperimentConfig) (t : TrackerState),
      lookupA t.assignments eid = some a →
      lookupA (exps.foldl (processExperiment env) t).assignments eid = some a := by
    intro exps
    induction exps with
    | nil => intro t ht; exact ht
    | cons e es ih =>
      intro t ht
      exact ih _ (processExperiment_keeps_assignment env t e eid a ht hv)
  unfold processExperiments
  cases hc : s.config with
  | none => exact ha
  | some cfg => exact key cfg.experiments s ha

set_option maxRecDepth 8000 in
theorem assignment_stability_witness :
    lookupA (processExperiments exEnv exLoad1).assignments "e" =
      some { variantId := "v1", variantName := none, experimentName := none,
             assignedAt := 0 } :=
  assignment_stability exEnv exLoad1 "e" _ (by decide) (by decide)

end AB
